import Mathlib

/-!
# The `orcastr` binding (`src/orcalib/bind.cpp`)

The source file consists of four static objects (two documentation
strings, a method table and a module descriptor) and one module
initialisation entry point.  This development embeds those objects as
Lean values, embeds the part of the host runtime that reads them (the
method-table walk, module creation and the dispatch of a call), and
proves the registration contract of the binding.

Conventions of the embedding:

* a C pointer that may be `NULL` is an `Option`; `NULL` is `none`;
* `char x[] = "..."` is the `String` it is initialised with;
* the address of a function is the symbol that names it (`FuncSym`); the
  code behind the symbol is supplied to a call as a parameter, since the
  library that defines `motif_counts_wrap` is not part of the file;
* a native function reports failure by returning `NULL`, so its outcome
  is an `Option PyObject`, with `none` for a failure.
-/

namespace Orca

/-! ## Types declared by the host headers -/

/-- Values of the host environment, as far as the binding's interface
needs them. -/
inductive PyObject where
  | none : PyObject
  | int (v : Int) : PyObject
  | str (s : String) : PyObject
  | tuple (items : List PyObject) : PyObject
  | module (name : String) : PyObject

/-- Function symbols whose address the source takes. -/
inductive FuncSym where
  | motif_counts_wrap : FuncSym
  deriving DecidableEq, Repr

/-- Calling-convention flag of the host: arguments arrive as one
positional tuple. -/
def METH_VARARGS : Nat := 0x0001

/-- Calling-convention flag of the host: a keyword dictionary is passed
as well. -/
def METH_KEYWORDS : Nat := 0x0002

/-- Calling-convention flag of the host: the function takes no
argument. -/
def METH_NOARGS : Nat := 0x0004

/-- Calling-convention flag of the host: the function takes exactly one
argument. -/
def METH_O : Nat := 0x0008

/-- Binding flag of the host, not allowed on module functions. -/
def METH_CLASS : Nat := 0x0010

/-- Binding flag of the host, not allowed on module functions. -/
def METH_STATIC : Nat := 0x0020

/-- One row of a method table: `{ml_name, ml_meth, ml_flags, ml_doc}`. -/
structure PyMethodDef where
  ml_name : Option String
  ml_meth : Option FuncSym
  ml_flags : Nat
  ml_doc : Option String
  deriving DecidableEq, Repr

/-- The header part of a module descriptor. -/
structure PyModuleDef_Base where
  m_init : Option Unit
  m_index : Nat
  m_copy : Option Unit
  deriving DecidableEq, Repr

/-- The value the host header gives to `PyModuleDef_HEAD_INIT`. -/
def PyModuleDef_HEAD_INIT : PyModuleDef_Base :=
  { m_init := none, m_index := 0, m_copy := none }

/-- A module descriptor, field by field in declaration order. -/
structure PyModuleDef where
  m_base : PyModuleDef_Base
  m_name : Option String
  m_doc : Option String
  m_size : Int
  m_methods : Option (List PyMethodDef)
  m_slots : Option Unit
  m_traverse : Option Unit
  m_clear : Option Unit
  m_free : Option Unit
  deriving DecidableEq, Repr

/-! ## The static objects of `bind.cpp` -/

/-- `char motif_count_func_docs[] = "Count motifs";` -/
def motif_count_func_docs : String := "Count motifs"

/-- `PyMethodDef orca_funcs[] = { {...}, {NULL} };`  The fields the
second initialiser leaves out are zero-initialised. -/
def orca_funcs : List PyMethodDef :=
  [ { ml_name := some "motif_counts_str",
      ml_meth := some FuncSym.motif_counts_wrap,
      ml_flags := METH_VARARGS,
      ml_doc := some motif_count_func_docs },
    { ml_name := none, ml_meth := none, ml_flags := 0, ml_doc := none } ]

/-- `char orcamod_docs[] = "orca module";` -/
def orcamod_docs : String := "orca module"

/-- `PyModuleDef orca_mod = { ... };` -/
def orca_mod : PyModuleDef :=
  { m_base := PyModuleDef_HEAD_INIT,
    m_name := some "orcastr",
    m_doc := some orcamod_docs,
    m_size := -1,
    m_methods := some orca_funcs,
    m_slots := none,
    m_traverse := none,
    m_clear := none,
    m_free := none }

/-- The exported symbol of the module initialisation entry point. -/
def PyInit_orcastr_symbol : String := "PyInit_orcastr"

/-!
## The host runtime, as far as it reads the static objects

Nothing in this section is code of `bind.cpp`: the flag values above and
the definitions below describe what the host's C interface does with a
method table and a module descriptor (the table walk, module creation,
the dispatch of a call).  The library function behind
`motif_counts_wrap` is never modelled; it is a parameter throughout.
-/

/-- The host's walk over a method table,
`for (fdef = functions; fdef->ml_name != NULL; fdef++)`: the rows
visited before the first row whose name is `NULL`.  The result is `none`
when the walk runs off the end of the array without meeting such a
row. -/
def walkTable : List PyMethodDef → Option (List PyMethodDef)
  | [] => none
  | d :: rest =>
    match d.ml_name with
    | none => some []
    | some _ => (walkTable rest).map (fun visited => d :: visited)

/-- A built-in function object: the table row it was made from and the
object it is bound to. -/
structure PyCFunctionObject where
  m_ml : PyMethodDef
  m_self : PyObject

/-- A module object: its name, its documentation, the callables set on
it and the descriptor it was created from. -/
structure PyModuleObject where
  md_name : String
  md_doc : Option String
  md_callables : List (String × PyCFunctionObject)
  md_def : PyModuleDef

/-- Setting an attribute replaces an earlier one of the same name. -/
def setCallable (attrs : List (String × PyCFunctionObject)) (n : String)
    (f : PyCFunctionObject) : List (String × PyCFunctionObject) :=
  (attrs.filter (fun p => p.1 ≠ n)) ++ [(n, f)]

/-- The callable a module exposes under a name, if any. -/
def PyModuleObject.getCallable (m : PyModuleObject) (n : String) :
    Option PyCFunctionObject :=
  (m.md_callables.find? (fun p => p.1 = n)).map (fun p => p.2)

/-- The host's registration of a method table on a module, one loop
over the table as in `walkTable`: a row carrying `METH_CLASS` or
`METH_STATIC` is refused, every other row before the first `NULL` name
becomes a callable under its name.  The result is `none` when a row is
refused or when the loop runs off the end of the array. -/
def addMethods (self : PyObject) :
    List PyMethodDef → List (String × PyCFunctionObject) →
      Option (List (String × PyCFunctionObject))
  | [], _ => none
  | d :: rest, attrs =>
    match d.ml_name with
    | none => some attrs
    | some n =>
      if d.ml_flags &&& METH_CLASS ≠ 0 ∨ d.ml_flags &&& METH_STATIC ≠ 0 then none
      else addMethods self rest (setCallable attrs n ⟨d, self⟩)

/-- The host's module creation from a descriptor: fails on a descriptor
without a name or with slots, or when the method table cannot be
registered; otherwise the module carries the descriptor's name and
documentation and one callable per registered row. -/
def PyModule_Create (d : PyModuleDef) : Option PyModuleObject :=
  match d.m_name with
  | none => none
  | some name =>
    if d.m_slots.isSome then none
    else
      let registered : Option (List (String × PyCFunctionObject)) :=
        match d.m_methods with
        | none => some []
        | some table => addMethods (PyObject.module name) table []
      registered.map (fun attrs =>
        { md_name := name, md_doc := d.m_doc, md_callables := attrs, md_def := d })

/-- The code behind a native function,
`PyObject *f(PyObject *self, PyObject *args)`: it may read and change
the state `W` outside the binding and returns an object, or `NULL` for a
failure.  The argument pointer is `NULL` under `METH_NOARGS`. -/
abbrev PyCFunction (W : Type) : Type :=
  PyObject → Option PyObject → W → Option PyObject × W

/-- Resolution of the function symbols of the source to their code: the
library function `motif_counts_wrap` is a parameter. -/
def resolve {W : Type} (motif_counts_wrap : PyCFunction W) : FuncSym → PyCFunction W
  | FuncSym.motif_counts_wrap => motif_counts_wrap

/-- The host's dispatch of a positional call on a built-in function
object, by the flags of its row.  Under `METH_VARARGS` the arguments are
handed over as one tuple, whatever their number; under `METH_NOARGS` and
`METH_O` the host itself rejects a call of the wrong arity.  Rows with
other flag combinations are not dispatched by this model (failure). -/
def callFunction {W : Type} (lib : FuncSym → PyCFunction W) (f : PyCFunctionObject)
    (args : List PyObject) (w : W) : Option PyObject × W :=
  match f.m_ml.ml_meth with
  | none => (none, w)
  | some sym =>
    if f.m_ml.ml_flags = METH_VARARGS then
      lib sym f.m_self (some (PyObject.tuple args)) w
    else if f.m_ml.ml_flags = METH_NOARGS then
      match args with
      | [] => lib sym f.m_self none w
      | _ :: _ => (none, w)
    else if f.m_ml.ml_flags = METH_O then
      match args with
      | [a] => lib sym f.m_self (some a) w
      | _ => (none, w)
    else (none, w)

/-- A positional call of the attribute `n` of a module: the lookup of
the name, then the dispatch.  A name the module does not expose is a
failure that invokes nothing. -/
def PyModuleObject.call {W : Type} (lib : FuncSym → PyCFunction W) (m : PyModuleObject)
    (n : String) (args : List PyObject) (w : W) : Option PyObject × W :=
  match m.getCallable n with
  | none => (none, w)
  | some f => callFunction lib f args w

/-- The binding-owned state: the four static objects of the source. -/
structure BindingState where
  motif_count_func_docs : String
  orca_funcs : List PyMethodDef
  orcamod_docs : String
  orca_mod : PyModuleDef
  deriving DecidableEq, Repr

/-- The binding-owned state as the static initialisers leave it. -/
def BindingState.static : BindingState :=
  { motif_count_func_docs := Orca.motif_count_func_docs,
    orca_funcs := Orca.orca_funcs,
    orcamod_docs := Orca.orcamod_docs,
    orca_mod := Orca.orca_mod }

/-- The state of the process during calls: the binding-owned objects,
which are writable memory with external linkage, and everything else
(`world`: the state of the library and of the host). -/
structure Process (W : Type) where
  binding : BindingState
  world : W

/-- The position in the descriptor's table of the row a function object
was made from: the object keeps a pointer to that row, not a copy. -/
def PyModuleObject.rowIndex (m : PyModuleObject) (f : PyCFunctionObject) : Nat :=
  (m.md_def.m_methods.getD []).indexOf f.m_ml

/-- One call of the attribute `n` of a module as a step of the process.
The host looks the name up, reads the row the function object points at
from the binding-owned table as it is in memory when the call is made,
and dispatches on what it reads as `callFunction` does.  The function
invoked receives the whole state of the process and returns the whole
state: nothing keeps it from writing the binding-owned objects.  A name
the module does not expose, or a pointer outside the table, is a failure
that invokes nothing. -/
def Process.call {W : Type} (lib : FuncSym → PyCFunction (Process W))
    (m : PyModuleObject) (n : String) (args : List PyObject) (p : Process W) :
    Option PyObject × Process W :=
  match m.getCallable n with
  | none => (none, p)
  | some f =>
    match p.binding.orca_funcs.get? (m.rowIndex f) with
    | none => (none, p)
    | some row => callFunction lib { m_ml := row, m_self := f.m_self } args p

/-- `PyMODINIT_FUNC PyInit_orcastr(void) { return PyModule_Create(&orca_mod); }` -/
def PyInit_orcastr : Option PyModuleObject :=
  PyModule_Create orca_mod

/-! ## Evaluation of the entry point -/

/-- The function object the entry point registers. -/
def motifCountsStrObject : PyCFunctionObject :=
  { m_ml := { ml_name := some "motif_counts_str",
              ml_meth := some FuncSym.motif_counts_wrap,
              ml_flags := METH_VARARGS,
              ml_doc := some motif_count_func_docs },
    m_self := PyObject.module "orcastr" }

/-- The module object the entry point returns. -/
def orcastrModule : PyModuleObject :=
  { md_name := "orcastr",
    md_doc := some orcamod_docs,
    md_callables := [("motif_counts_str", motifCountsStrObject)],
    md_def := orca_mod }

/-- A library function that requires one argument: it fails on the empty
tuple and returns its first argument otherwise. -/
def requiresOneArgument : PyCFunction Unit := fun _ args w =>
  match args with
  | some (PyObject.tuple (a :: _)) => (some a, w)
  | _ => (none, w)

/-- A library function that overwrites a binding-owned object, the
documentation string of the callable. -/
def overwritingLibrary : PyCFunction (Process Nat) := fun _ _ q =>
  (some PyObject.none,
    { binding := { q.binding with motif_count_func_docs := "" }, world := q.world })

/-- The process right after static initialisation, before any call. -/
def initialProcess : Process Nat :=
  { binding := BindingState.static, world := 0 }

theorem PyInit_orcastr_eval : PyInit_orcastr = some orcastrModule := by
  rfl

theorem orcastrModule_getCallable (n : String) :
    orcastrModule.getCallable n =
      if n = "motif_counts_str" then some motifCountsStrObject else none := by
  unfold PyModuleObject.getCallable orcastrModule
  by_cases h : n = "motif_counts_str"
  · subst h; simp
  · have h2 : ¬ ("motif_counts_str" = n) := fun e => h e.symm
    simp [List.find?, h, h2]

theorem orcastrModule_call {W : Type} (lib : FuncSym → PyCFunction W)
    (args : List PyObject) (w : W) :
    orcastrModule.call lib "motif_counts_str" args w =
      lib FuncSym.motif_counts_wrap (PyObject.module "orcastr")
        (some (PyObject.tuple args)) w := by
  unfold PyModuleObject.call
  rw [orcastrModule_getCallable]
  simp [callFunction, motifCountsStrObject]

theorem orcastrModule_rowIndex :
    orcastrModule.rowIndex motifCountsStrObject = 0 := by
  decide

theorem orcastrModule_process_call {W : Type} (motif_counts_wrap : PyCFunction (Process W))
    (args : List PyObject) (p : Process W) (hp : p.binding.orca_funcs = orca_funcs) :
    p.call (resolve motif_counts_wrap) orcastrModule "motif_counts_str" args =
      motif_counts_wrap (PyObject.module "orcastr") (some (PyObject.tuple args)) p := by
  unfold Process.call
  rw [orcastrModule_getCallable]
  simp only [if_true, orcastrModule_rowIndex, hp]
  simp [orca_funcs, callFunction, motifCountsStrObject, resolve]

/-- The call reads the table from the state: on a state whose table is
empty the call fails and invokes nothing, whatever the library. -/
theorem call_on_empty_table {W : Type} (lib : FuncSym → PyCFunction (Process W))
    (args : List PyObject) (p : Process W) (hp : p.binding.orca_funcs = []) :
    p.call lib orcastrModule "motif_counts_str" args = (none, p) := by
  unfold Process.call
  rw [orcastrModule_getCallable]
  simp [hp]

/-- The state model does not shield the binding-owned objects from the
library: a library function that overwrites one changes it through a
call. -/
theorem call_with_overwritingLibrary :
    (initialProcess.call (resolve overwritingLibrary) orcastrModule "motif_counts_str"
      []).2.binding ≠ initialProcess.binding := by
  rw [orcastrModule_process_call overwritingLibrary [] initialProcess rfl]
  decide

/-! ## The registration contract -/

/-- C1: the method table has two rows, the walk up to the sentinel visits
exactly one row, that row is named "motif_counts_str" and carries a
function, and the module the entry point returns exposes a callable
under a name exactly when the name is "motif_counts_str". -/
theorem orca_funcs_exposes_exactly_motif_counts_str :
    orca_funcs.length = 2 ∧
    (∃ e : PyMethodDef, walkTable orca_funcs = some [e] ∧
      e.ml_name = some "motif_counts_str" ∧ e.ml_meth.isSome = true) ∧
    (∃ m : PyModuleObject, PyInit_orcastr = some m ∧
      ∀ n : String, (m.getCallable n).isSome = true ↔ n = "motif_counts_str") := by
  refine ⟨rfl, ⟨_, rfl, rfl, rfl⟩, orcastrModule, PyInit_orcastr_eval, ?_⟩
  intro n
  rw [orcastrModule_getCallable]
  by_cases h : n = "motif_counts_str" <;> simp [h]

/-- C2: the entry point returns exactly what module creation returns on
the descriptor orca_mod; the descriptor's name is "orcastr" and its
method table is orca_funcs; the module created carries the name
"orcastr", the descriptor it came from, and nothing but the table's one
callable. -/
theorem PyInit_orcastr_registers_orcastr :
    PyInit_orcastr = PyModule_Create orca_mod ∧
    orca_mod.m_name = some "orcastr" ∧
    orca_mod.m_methods = some orca_funcs ∧
    (∃ m : PyModuleObject, PyInit_orcastr = some m ∧ m.md_name = "orcastr" ∧
      m.md_def = orca_mod ∧ (m.md_callables.map Prod.fst) = ["motif_counts_str"]) :=
  ⟨rfl, rfl, rfl, orcastrModule, PyInit_orcastr_eval, rfl, rfl, rfl⟩

/-- C3: the table row binds the name to the symbol motif_counts_wrap, and
for every library function, every list of positional arguments and every
state, calling motif_counts_str on the loaded module gives exactly the
outcome and the state that motif_counts_wrap gives on the module and the
tuple of those arguments. -/
theorem motif_counts_str_refines_motif_counts_wrap {W : Type}
    (motif_counts_wrap : PyCFunction W) (args : List PyObject) (w : W) :
    (orca_funcs.head?.bind fun d => d.ml_meth) = some FuncSym.motif_counts_wrap ∧
    ∃ m : PyModuleObject, PyInit_orcastr = some m ∧
      m.call (resolve motif_counts_wrap) "motif_counts_str" args w =
        motif_counts_wrap (PyObject.module "orcastr") (some (PyObject.tuple args)) w :=
  ⟨rfl, orcastrModule, PyInit_orcastr_eval, by rw [orcastrModule_call]; rfl⟩

/-- C4: the flags of the row motif_counts_str are exactly METH_VARARGS,
the keyword flag is not set, and the function object made from the row
hands any list of arguments, of any length and of any types, to the
function as one tuple. -/
theorem motif_counts_str_is_varargs_only {W : Type} (lib : FuncSym → PyCFunction W) :
    ∃ f : PyCFunctionObject,
      (PyInit_orcastr.bind fun m => m.getCallable "motif_counts_str") = some f ∧
      f.m_ml.ml_flags = METH_VARARGS ∧
      f.m_ml.ml_flags &&& METH_KEYWORDS = 0 ∧
      ∀ (args : List PyObject) (w : W),
        callFunction lib f args w =
          lib FuncSym.motif_counts_wrap f.m_self (some (PyObject.tuple args)) w := by
  refine ⟨motifCountsStrObject, ?_, rfl, rfl, ?_⟩
  · rw [PyInit_orcastr_eval]
    simp [orcastrModule_getCallable]
  · intro args w
    simp [callFunction, motifCountsStrObject]

/-- C5: the documentation string of the callable is "Count motifs" and
that of the module is "orca module", in the static objects and on the
loaded module alike. -/
theorem documentation_strings_are_static :
    motif_count_func_docs = "Count motifs" ∧
    orcamod_docs = "orca module" ∧
    (orca_funcs.head?.bind fun d => d.ml_doc) = some "Count motifs" ∧
    orca_mod.m_doc = some "orca module" ∧
    (∃ m : PyModuleObject, PyInit_orcastr = some m ∧ m.md_doc = some "orca module" ∧
      ((m.getCallable "motif_counts_str").bind fun f => f.m_ml.ml_doc) =
        some "Count motifs") := by
  refine ⟨rfl, rfl, rfl, rfl, orcastrModule, PyInit_orcastr_eval, rfl, ?_⟩
  simp [orcastrModule_getCallable, motifCountsStrObject, motif_count_func_docs]

/-- C6: for every library function that fails on the empty argument
tuple, calling motif_counts_str on the loaded module with no argument
fails too. -/
theorem motif_counts_str_zero_args_fails {W : Type}
    (motif_counts_wrap : PyCFunction W) (w : W)
    (hfail : (motif_counts_wrap (PyObject.module "orcastr")
      (some (PyObject.tuple [])) w).1 = none) :
    ∃ m : PyModuleObject, PyInit_orcastr = some m ∧
      (m.call (resolve motif_counts_wrap) "motif_counts_str" [] w).1 = none := by
  refine ⟨orcastrModule, PyInit_orcastr_eval, ?_⟩
  rw [orcastrModule_call]
  exact hfail

/-- Witness for C6 at a library function that requires one argument. -/
theorem motif_counts_str_zero_args_fails_witness :
    (requiresOneArgument (PyObject.module "orcastr") (some (PyObject.tuple [])) ()).1 = none ∧
    ∃ m : PyModuleObject, PyInit_orcastr = some m ∧
      (m.call (resolve requiresOneArgument) "motif_counts_str" [] ()).1 = none :=
  ⟨rfl, motif_counts_str_zero_args_fails requiresOneArgument () rfl⟩

/-- C9: the last row of the table is a sentinel with a NULL name, every
row before it has a name and a function, and the walk that stops at the
first NULL name visits exactly the one real row and reads no more rows
than the array has. -/
theorem orca_funcs_well_formed :
    (∃ s : PyMethodDef, orca_funcs.getLast? = some s ∧ s.ml_name = none) ∧
    (∀ d ∈ orca_funcs.dropLast, d.ml_name.isSome = true ∧ d.ml_meth.isSome = true) ∧
    (∃ visited : List PyMethodDef, walkTable orca_funcs = some visited ∧
      visited = orca_funcs.dropLast ∧ visited.length = 1 ∧
      visited.length + 1 ≤ orca_funcs.length) := by
  refine ⟨⟨_, rfl, rfl⟩, ?_, ⟨_, rfl, rfl, rfl, ?_⟩⟩
  · intro d hd
    simp [orca_funcs] at hd
    subst hd
    exact ⟨rfl, rfl⟩
  · decide

/-- C10: the symbol of the entry point is "PyInit_" followed by the name
field of the descriptor, the descriptor's state size is -1, and its
slots, traverse, clear and free fields are NULL. -/
theorem PyInit_symbol_matches_orca_mod :
    (∃ name : String, orca_mod.m_name = some name ∧ name = "orcastr" ∧
      PyInit_orcastr_symbol = "PyInit_" ++ name) ∧
    orca_mod.m_size = -1 ∧
    orca_mod.m_slots = none ∧ orca_mod.m_traverse = none ∧
    orca_mod.m_clear = none ∧ orca_mod.m_free = none := by
  refine ⟨⟨"orcastr", rfl, rfl, ?_⟩, rfl, rfl, rfl, rfl, rfl⟩
  decide

end Orca
